import Mathlib

/-!
Shallow embedding of Hoard's `src/source/unixtls.cpp`.

The file manages the lifecycle of one Local Cache (TLAB) per thread:
two build-time storage variants of `getCustomHeap` (the inline
`__thread`-buffer variant and the pthread-key ("keyed") variant), the
shared teardown `exitRoutine`, the wrapper entry function `startMeUp`,
and the intercepted `pthread_exit` / `pthread_create`.

The embedding is a sequential state machine over one thread's view of
the process.  Every externally observable action of the code is
recorded as an event in a trace, and the state carries the thread's
TLS slots, the one-time-initialization flags, the `anyThreadCreated`
flag, the launch-package liveness bit and the pool's leased-slot
count.  Local Cache instances are identified by freshly drawn natural
numbers standing for the addresses the C code produces.
-/

namespace HoardTLS

/-- Observable actions of `unixtls.cpp`, in the order the code can emit
them: placement-construction of a Local Cache, the keyed variant's
`malloc` of cache storage, `heap->clear()`, the keyed destructor's
`free` of the cache storage, `findUnusedHeap()`, `releaseHeap()`,
reading the launch package's two fields, freeing the launch package's
storage, invoking the real entry function, the `anyThreadCreated = true`
store, the call to the real `pthread_create`, and the forwarding call to
the real `pthread_exit`. -/
inductive Ev where
  | tlabConstruct
  | tlabMalloc
  | tlabClear
  | tlabFree
  | heapLease
  | heapRelease
  | extractPack
  | freePack
  | runEntry
  | setFlag
  | callRealCreate
  | forwardRealExit
  deriving DecidableEq, Repr

/-- How the intercepted `pthread_exit` terminates: it never produces a
`returned` value because the forwarding call to the real implementation
does not return. -/
inductive Outcome where
  | returned (v : Nat)
  | exited
  deriving DecidableEq, Repr

/-- One thread's view of the process state: the inline variant's
`theTLAB` pointer, the keyed variant's registration flags
(`pthread_key_create` success, the `pthread_once` gate, the
`initializedTSD` static), the thread's `pthread_getspecific` slot, the
launch package's liveness, the shared `anyThreadCreated` flag, the
`static volatile t` initializer gate inside `pthread_create`, the
Global Heap Pool's leased-slot count, a fresh-address source, and the
event trace. -/
structure S where
  theTLAB : Option Nat := none
  keyRegistered : Bool := false
  keyOnceDone : Bool := false
  initializedTSD : Bool := false
  tsdValue : Option Nat := none
  packAlive : Bool := false
  anyThreadCreated : Bool := false
  staticTDone : Bool := false
  leased : Int := 0
  nextId : Nat := 0
  tr : List Ev := []
  deriving DecidableEq, Repr

/-- The initial state: a fresh thread in a fresh process. -/
def S0 : S := {}

/-- Append one event to the trace. -/
def emit (s : S) (e : Ev) : S := { s with tr := s.tr ++ [e] }

/-- Modelled from the spec: the Global Heap Pool's `findUnusedHeap()`
(the pool itself is outside this file); per the Heap Lease Protocol it
leases one heap identity, so the leased count goes up by one. -/
def findUnusedHeap (s : S) : S :=
  { emit s Ev.heapLease with leased := s.leased + 1 }

/-- Modelled from the spec: the Global Heap Pool's `releaseHeap()`
(the pool itself is outside this file); per the Heap Lease Protocol it
returns one heap identity, so the leased count goes down by one. -/
def releaseHeap (s : S) : S :=
  { emit s Ev.heapRelease with leased := s.leased - 1 }

/-- Inline variant `initializeCustomHeap` (`unixtls.cpp:80`):
placement-construct a Local Cache in the thread-local buffer and point
`theTLAB` at it. -/
def initializeCustomHeapInline (s : S) : Nat × S :=
  (s.nextId,
   { emit s Ev.tlabConstruct with theTLAB := some s.nextId, nextId := s.nextId + 1 })

/-- Inline variant `getCustomHeap` (`unixtls.cpp:87`): return `theTLAB`,
constructing it first if it is still null. -/
def getCustomHeapInline (s : S) : Nat × S :=
  match s.theTLAB with
  | some h => (h, s)
  | none => initializeCustomHeapInline s

/-- Keyed variant `make_heap_key` (`unixtls.cpp:112`): call
`pthread_key_create`; on success the key (with its destructor) is
registered; the failure branch of the `if` is empty ("This should
never happen."). -/
def make_heap_key (keyCreateOk : Bool) (s : S) : S :=
  if keyCreateOk then { s with keyRegistered := true } else s

/-- Keyed variant `initTSD` (`unixtls.cpp:120`): behind its own
`initializedTSD` static, run `make_heap_key` once through the
`pthread_once` gate. -/
def initTSD (keyCreateOk : Bool) (s : S) : S :=
  if s.initializedTSD then s
  else
    let s1 := if s.keyOnceDone then s
              else { make_heap_key keyCreateOk s with keyOnceDone := true }
    { s1 with initializedTSD := true }

/-- Keyed variant `initializeCustomHeap` (`unixtls.cpp:129`): allocate
cache storage from the Global Heap Pool, placement-construct the Local
Cache there, and store the pointer with `pthread_setspecific`. -/
def initializeCustomHeapKeyed (s : S) : Nat × S :=
  (s.nextId,
   { emit (emit s Ev.tlabMalloc) Ev.tlabConstruct with
       tsdValue := some s.nextId, nextId := s.nextId + 1 })

/-- Keyed variant `getCustomHeap` (`unixtls.cpp:141`): run `initTSD`,
read the thread's slot with `pthread_getspecific`, and construct the
cache if the slot is null. -/
def getCustomHeapKeyed (keyCreateOk : Bool) (s : S) : Nat × S :=
  let s0 := initTSD keyCreateOk s
  match s0.tsdValue with
  | some h => (h, s0)
  | none => initializeCustomHeapKeyed s0

/-- Keyed variant destructor `deleteThatHeap` (`unixtls.cpp:103`):
clear the cache, free its storage back to the pool, and relinquish the
assigned heap with `releaseHeap`. -/
def deleteThatHeap (s : S) : S :=
  releaseHeap (emit (emit s Ev.tlabClear) Ev.tlabFree)

/-- Modelled from the spec: the thread-local-value table's runtime
"invokes a destructor callback automatically when the thread
terminates"; the runtime clears the slot and runs the registered
destructor (`deleteThatHeap`) when the slot value is non-null (this
driver is platform runtime behaviour, not code of `unixtls.cpp`). -/
def runKeyDestructor (s : S) : S :=
  match s.tsdValue with
  | none => s
  | some _ =>
    if s.keyRegistered then deleteThatHeap { s with tsdValue := none } else s

/-- `exitRoutine` (`unixtls.cpp:174`), parameterized by the build-time
`getCustomHeap` variant: obtain the thread's cache (constructing it if
absent), clear it, and relinquish the assigned heap. -/
def exitRoutine (gch : S → Nat × S) (s : S) : S :=
  releaseHeap (emit (gch s).2 Ev.tlabClear)

/-- The part of `startMeUp` (`unixtls.cpp:185`) that runs before the
real entry function returns: `getCustomHeap()`, then
`findUnusedHeap()`, then reading the launch package's two fields, then
invoking the real entry function. -/
def wrapperPreEntry (gch : S → Nat × S) (s : S) : S :=
  emit (emit (findUnusedHeap (gch s).2) Ev.extractPack) Ev.runEntry

/-- The wrapper entry function `startMeUp` (`unixtls.cpp:185`): set up
the TLAB and the heap lease, read the launch package, run the real
entry function `f` on its argument, run `exitRoutine`, and return the
real entry function's result.  The launch package's storage is not
touched after extraction (the code has no `delete`/`free` for it). -/
def startMeUp (gch : S → Nat × S) (f : Nat → Nat) (arg : Nat) (s : S) : Nat × S :=
  (f arg, exitRoutine gch (wrapperPreEntry gch s))

/-- The intercepted `pthread_exit` (`unixtls.cpp:284`): run
`exitRoutine`, then forward to the real `pthread_exit`, which does not
return (the trailing `exit(0)` is unreachable), so the outcome is
always `exited`. -/
def interceptedPthreadExit (gch : S → Nat × S) (s : S) : Outcome × S :=
  (Outcome.exited, emit (exitRoutine gch s) Ev.forwardRealExit)

/-- The arguments the intercepted `pthread_create` passes to the real
`pthread_create`: the forwarded thread handle and attributes, whether
the start routine was replaced by `startMeUp`, and the two fields of
the launch package it allocates (the caller's routine and argument,
as opaque identifiers). -/
structure RealCall where
  thread : Nat
  attr : Nat
  routineIsWrapper : Bool
  packFun : Nat
  packArg : Nat
  deriving DecidableEq, Repr

/-- The intercepted `pthread_create` (`unixtls.cpp:308`): on its first
call, initialize the calling thread's TLAB through the `static
volatile t` gate; set `anyThreadCreated`; allocate the launch package
with `new`; call the real `pthread_create` with the handle and
attributes forwarded, the start routine replaced by `startMeUp`, and
the package as its argument; and return the real call's result
(`realRet` stands for whatever the external real call returns). -/
def interceptedPthreadCreate (gch : S → Nat × S) (realRet : Int)
    (thr attrp rt arg : Nat) (s : S) : Int × RealCall × S :=
  let s1 := if s.staticTDone then s else { (gch s).2 with staticTDone := true }
  let s2 := { emit s1 Ev.setFlag with anyThreadCreated := true }
  let s3 := { s2 with packAlive := true }
  let s4 := emit s3 Ev.callRealCreate
  (realRet, ⟨thr, attrp, true, rt, arg⟩, s4)

/-- Full lifetime of a thread under the keyed storage variant that
terminates normally: the wrapper `startMeUp` runs to completion
(including its `exitRoutine`), and then the runtime invokes the
registered pthread-key destructor, exactly the scenario in which both
teardown routines run. -/
def keyedNormalTermination (f : Nat → Nat) (arg : Nat) (s : S) : Nat × S :=
  let r := startMeUp (getCustomHeapKeyed true) f arg s
  (r.1, runKeyDestructor r.2)

/-- `existsPrecede e1 e2 l` decides whether some occurrence of `e1`
strictly precedes some occurrence of `e2` in `l`. -/
def existsPrecede (e1 e2 : Ev) (l : List Ev) : Bool :=
  match l with
  | [] => false
  | a :: rest => if a = e1 then rest.contains e2 else existsPrecede e1 e2 rest

/-- `initTSD` only touches the one-time-initialization flags: the
thread's TSD slot is unchanged. -/
theorem initTSD_tsdValue (ok : Bool) (s : S) : (initTSD ok s).tsdValue = s.tsdValue := by
  cases h1 : s.initializedTSD <;> cases h2 : s.keyOnceDone <;> cases ok <;>
    simp [initTSD, make_heap_key, h1, h2]

/-- `initTSD` emits no events. -/
theorem initTSD_tr (ok : Bool) (s : S) : (initTSD ok s).tr = s.tr := by
  cases h1 : s.initializedTSD <;> cases h2 : s.keyOnceDone <;> cases ok <;>
    simp [initTSD, make_heap_key, h1, h2]

/-- `initTSD` does not touch the pool's leased count. -/
theorem initTSD_leased (ok : Bool) (s : S) : (initTSD ok s).leased = s.leased := by
  cases h1 : s.initializedTSD <;> cases h2 : s.keyOnceDone <;> cases ok <;>
    simp [initTSD, make_heap_key, h1, h2]

/-- `initTSD` does not consume fresh identifiers. -/
theorem initTSD_nextId (ok : Bool) (s : S) : (initTSD ok s).nextId = s.nextId := by
  cases h1 : s.initializedTSD <;> cases h2 : s.keyOnceDone <;> cases ok <;>
    simp [initTSD, make_heap_key, h1, h2]

/-- `initTSD` does not touch the inline variant's TLS pointer. -/
theorem initTSD_theTLAB (ok : Bool) (s : S) : (initTSD ok s).theTLAB = s.theTLAB := by
  cases h1 : s.initializedTSD <;> cases h2 : s.keyOnceDone <;> cases ok <;>
    simp [initTSD, make_heap_key, h1, h2]

/-- After `initTSD` the `initializedTSD` static is set. -/
theorem initTSD_initializedTSD (ok : Bool) (s : S) :
    (initTSD ok s).initializedTSD = true := by
  cases h1 : s.initializedTSD <;> cases h2 : s.keyOnceDone <;> cases ok <;>
    simp [initTSD, make_heap_key, h1, h2]

/-- A second `initTSD` is the identity. -/
theorem initTSD_of_initialized (ok : Bool) (s : S) (h : s.initializedTSD = true) :
    initTSD ok s = s := by
  simp [initTSD, h]

/-- The keyed construction step preserves the `initializedTSD` static. -/
theorem initializeCustomHeapKeyed_initializedTSD (s : S) :
    (initializeCustomHeapKeyed s).2.initializedTSD = s.initializedTSD := rfl

/-- The keyed construction step stores the new cache in the TSD slot. -/
theorem initializeCustomHeapKeyed_tsdValue (s : S) :
    (initializeCustomHeapKeyed s).2.tsdValue = some s.nextId := rfl

/-- Claim C3: `getCustomHeap()` is idempotent within a thread in both
storage variants — the call after a first call returns the same Local
Cache instance and leaves the state unchanged — and the first call on
a fresh thread constructs the cache (inline: placement-construction
into the buffer; keyed: pool `malloc` plus construction) and records
it in the thread's slot. -/
theorem getCustomHeap_idempotent_per_thread (s : S) (ok : Bool) :
    (getCustomHeapInline (getCustomHeapInline s).2).1 = (getCustomHeapInline s).1
    ∧ (getCustomHeapInline (getCustomHeapInline s).2).2 = (getCustomHeapInline s).2
    ∧ (getCustomHeapKeyed ok (getCustomHeapKeyed ok s).2).1 = (getCustomHeapKeyed ok s).1
    ∧ (getCustomHeapKeyed ok (getCustomHeapKeyed ok s).2).2 = (getCustomHeapKeyed ok s).2
    ∧ (getCustomHeapInline S0).2.theTLAB = some (getCustomHeapInline S0).1
    ∧ (getCustomHeapInline S0).2.tr = [Ev.tlabConstruct]
    ∧ (getCustomHeapKeyed true S0).2.tsdValue = some (getCustomHeapKeyed true S0).1
    ∧ (getCustomHeapKeyed true S0).2.tr = [Ev.tlabMalloc, Ev.tlabConstruct] := by
  refine ⟨?_, ?_, ?_, ?_, by decide, by decide, by decide, by decide⟩
  · cases h : s.theTLAB <;>
      simp [getCustomHeapInline, initializeCustomHeapInline, emit, h]
  · cases h : s.theTLAB <;>
      simp [getCustomHeapInline, initializeCustomHeapInline, emit, h]
  · cases h1 : s.initializedTSD <;> cases h2 : s.keyOnceDone <;> cases ok <;>
      cases h3 : s.tsdValue <;>
      simp [getCustomHeapKeyed, initTSD, make_heap_key, initializeCustomHeapKeyed,
            emit, h1, h2, h3]
  · cases h1 : s.initializedTSD <;> cases h2 : s.keyOnceDone <;> cases ok <;>
      cases h3 : s.tsdValue <;>
      simp [getCustomHeapKeyed, initTSD, make_heap_key, initializeCustomHeapKeyed,
            emit, h1, h2, h3]

/-- Claim C1 fails on the code (keyed variant): running the full keyed
lifecycle of a normally terminating intercepted thread — the wrapper,
whose `exitRoutine` releases the heap, followed by the registered
pthread-key destructor `deleteThatHeap`, which releases it again —
produces two `releaseHeap` calls for a single `findUnusedHeap` lease,
driving the pool's leased count from 0 to -1; the inline-variant
wrapper alone releases exactly once. -/
theorem keyed_normal_termination_double_release :
    ((keyedNormalTermination (fun n => n) 0 S0).2.tr.count Ev.heapRelease = 2)
    ∧ ((keyedNormalTermination (fun n => n) 0 S0).2.tr.count Ev.heapLease = 1)
    ∧ ((keyedNormalTermination (fun n => n) 0 S0).2.leased = -1)
    ∧ ((startMeUp getCustomHeapInline (fun n => n) 0 S0).2.tr.count Ev.heapRelease = 1) := by
  decide

/-- Claim C2 fails on the code: in a concrete wrapper run on a fresh
thread, both the heap lease and the Local Cache construction occur,
but no lease precedes the construction — `startMeUp` calls
`getCustomHeap()` first and `findUnusedHeap()` only afterwards. -/
theorem lease_not_before_construction :
    existsPrecede Ev.heapLease Ev.tlabConstruct
        ((startMeUp getCustomHeapInline (fun n => n) 0 S0).2.tr) = false
    ∧ Ev.heapLease ∈ (startMeUp getCustomHeapInline (fun n => n) 0 S0).2.tr
    ∧ Ev.tlabConstruct ∈ (startMeUp getCustomHeapInline (fun n => n) 0 S0).2.tr := by
  decide

/-- Claim C2 (amended): within the wrapper run by every intercepted
thread, the Local Cache construction completes before the heap lease,
and the flush and heap release happen after the real entry function
returns and are the wrapper's final actions before it returns to the
platform's thread-exit path. -/
theorem construction_before_lease_then_teardown (f : Nat → Nat) (arg : Nat)
    (s : S) (h : s.theTLAB = none) :
    (startMeUp getCustomHeapInline f arg s).2.tr
      = s.tr ++ [Ev.tlabConstruct, Ev.heapLease, Ev.extractPack, Ev.runEntry,
                 Ev.tlabClear, Ev.heapRelease] := by
  simp [startMeUp, wrapperPreEntry, exitRoutine, findUnusedHeap, releaseHeap,
        emit, getCustomHeapInline, initializeCustomHeapInline, h]

/-- Witness for the amended claim C2, at a fresh thread state. -/
theorem construction_before_lease_then_teardown_witness :
    S0.theTLAB = none ∧
    (startMeUp getCustomHeapInline (fun n => n + 1) 3 S0).2.tr
      = S0.tr ++ [Ev.tlabConstruct, Ev.heapLease, Ev.extractPack, Ev.runEntry,
                 Ev.tlabClear, Ev.heapRelease] :=
  ⟨rfl, construction_before_lease_then_teardown (fun n => n + 1) 3 S0 rfl⟩

/-- Claim C7 fails on the code: a failing `pthread_key_create` inside
`make_heap_key` leaves the process state completely unchanged — the
failure branch of the `if` is empty — so the process proceeds with an
unregistered slot instead of treating the failure as fatal. -/
theorem key_create_failure_state_unchanged :
    make_heap_key false S0 = S0 ∧ (make_heap_key false S0).keyRegistered = false := by
  decide

/-- Claim C7 (amended): in the keyed storage variant, a failure of
`pthread_key_create` inside the one-time gate is silently ignored —
the state is left unchanged and the slot stays unregistered — while a
successful call registers the slot. -/
theorem key_create_failure_silently_ignored (s : S) :
    make_heap_key false s = s ∧ (make_heap_key true s).keyRegistered = true := by
  constructor
  · simp [make_heap_key]
  · simp [make_heap_key]

/-- Claim C4: in both storage variants the wrapper returns exactly the
real entry function's value as the thread's result, and the teardown
(flush of the Local Cache, release of the heap slot) is the trace
suffix following the entry-function invocation, whatever `f` returns. -/
theorem wrapper_preserves_entry_result_and_always_tears_down
    (f : Nat → Nat) (arg : Nat) (s : S) :
    (startMeUp getCustomHeapInline f arg s).1 = f arg
    ∧ (startMeUp (getCustomHeapKeyed true) f arg s).1 = f arg
    ∧ (∃ pre, (startMeUp getCustomHeapInline f arg s).2.tr
        = s.tr ++ pre ++ [Ev.runEntry, Ev.tlabClear, Ev.heapRelease])
    ∧ (∃ pre, (startMeUp (getCustomHeapKeyed true) f arg s).2.tr
        = s.tr ++ pre ++ [Ev.runEntry, Ev.tlabClear, Ev.heapRelease]) := by
  refine ⟨rfl, rfl, ?_, ?_⟩
  · cases h : s.theTLAB with
    | none =>
        exact ⟨[Ev.tlabConstruct, Ev.heapLease, Ev.extractPack], by
          simp [startMeUp, wrapperPreEntry, exitRoutine, findUnusedHeap,
                releaseHeap, emit, getCustomHeapInline, initializeCustomHeapInline, h]⟩
    | some v =>
        exact ⟨[Ev.heapLease, Ev.extractPack], by
          simp [startMeUp, wrapperPreEntry, exitRoutine, findUnusedHeap,
                releaseHeap, emit, getCustomHeapInline, h]⟩
  · cases h : s.tsdValue with
    | none =>
        exact ⟨[Ev.tlabMalloc, Ev.tlabConstruct, Ev.heapLease, Ev.extractPack], by
          simp [startMeUp, wrapperPreEntry, exitRoutine, findUnusedHeap,
                releaseHeap, emit, getCustomHeapKeyed, initializeCustomHeapKeyed,
                initTSD_tsdValue, initTSD_tr, h]⟩
    | some v =>
        exact ⟨[Ev.heapLease, Ev.extractPack], by
          simp [startMeUp, wrapperPreEntry, exitRoutine, findUnusedHeap,
                releaseHeap, emit, getCustomHeapKeyed, initTSD_tsdValue,
                initTSD_tr, h]⟩

/-- Claim C5: in both storage variants the intercepted `pthread_exit`
first performs the full teardown — the flush and the heap release are
in the trace segment preceding the forwarding call — then forwards to
the real `pthread_exit` as its last action, and its outcome is always
`exited`: control never returns to the caller. -/
theorem pthread_exit_teardown_before_forward_never_returns (s : S) :
    (interceptedPthreadExit getCustomHeapInline s).1 = Outcome.exited
    ∧ (interceptedPthreadExit (getCustomHeapKeyed true) s).1 = Outcome.exited
    ∧ (∃ pre, (interceptedPthreadExit getCustomHeapInline s).2.tr
        = s.tr ++ pre ++ [Ev.forwardRealExit]
        ∧ Ev.tlabClear ∈ pre ∧ Ev.heapRelease ∈ pre)
    ∧ (∃ pre, (interceptedPthreadExit (getCustomHeapKeyed true) s).2.tr
        = s.tr ++ pre ++ [Ev.forwardRealExit]
        ∧ Ev.tlabClear ∈ pre ∧ Ev.heapRelease ∈ pre) := by
  refine ⟨rfl, rfl, ?_, ?_⟩
  · cases h : s.theTLAB with
    | none =>
        refine ⟨[Ev.tlabConstruct, Ev.tlabClear, Ev.heapRelease], ?_, by decide, by decide⟩
        simp [interceptedPthreadExit, exitRoutine, releaseHeap, emit,
              getCustomHeapInline, initializeCustomHeapInline, h]
    | some v =>
        refine ⟨[Ev.tlabClear, Ev.heapRelease], ?_, by decide, by decide⟩
        simp [interceptedPthreadExit, exitRoutine, releaseHeap, emit,
              getCustomHeapInline, h]
  · cases h : s.tsdValue with
    | none =>
        refine ⟨[Ev.tlabMalloc, Ev.tlabConstruct, Ev.tlabClear, Ev.heapRelease],
          ?_, by decide, by decide⟩
        simp [interceptedPthreadExit, exitRoutine, releaseHeap, emit,
              getCustomHeapKeyed, initializeCustomHeapKeyed, initTSD_tsdValue,
              initTSD_tr, h]
    | some v =>
        refine ⟨[Ev.tlabClear, Ev.heapRelease], ?_, by decide, by decide⟩
        simp [interceptedPthreadExit, exitRoutine, releaseHeap, emit,
              getCustomHeapKeyed, initTSD_tsdValue, initTSD_tr, h]

/-- Claim C6: starting an intercepted thread from a fresh state, the
normal-return path (the wrapper runs the entry function and then its
teardown) and the mid-body explicit-exit path (the wrapper reaches the
entry function, which calls the intercepted `pthread_exit`) append the
same events up to and including the teardown — the same flush and
release right after the entry invocation — leave the thread's Local
Cache slot in the same state, and both return the pool's leased count
to its pre-creation value; the explicit path additionally forwards to
the real exit and never returns. -/
theorem both_exit_paths_same_teardown (f : Nat → Nat) (arg : Nat) (s : S)
    (h : s.theTLAB = none) :
    ((startMeUp getCustomHeapInline f arg s).2.tr).drop s.tr.length
      = [Ev.tlabConstruct, Ev.heapLease, Ev.extractPack, Ev.runEntry,
         Ev.tlabClear, Ev.heapRelease]
    ∧ ((interceptedPthreadExit getCustomHeapInline
          (wrapperPreEntry getCustomHeapInline s)).2.tr).drop s.tr.length
      = [Ev.tlabConstruct, Ev.heapLease, Ev.extractPack, Ev.runEntry,
         Ev.tlabClear, Ev.heapRelease, Ev.forwardRealExit]
    ∧ (startMeUp getCustomHeapInline f arg s).2.theTLAB
      = (interceptedPthreadExit getCustomHeapInline
          (wrapperPreEntry getCustomHeapInline s)).2.theTLAB
    ∧ (startMeUp getCustomHeapInline f arg s).2.leased = s.leased
    ∧ (interceptedPthreadExit getCustomHeapInline
        (wrapperPreEntry getCustomHeapInline s)).2.leased = s.leased
    ∧ (interceptedPthreadExit getCustomHeapInline
        (wrapperPreEntry getCustomHeapInline s)).1 = Outcome.exited := by
  refine ⟨?_, ?_, ?_, ?_, ?_, rfl⟩ <;>
    simp [startMeUp, wrapperPreEntry, exitRoutine, interceptedPthreadExit,
          findUnusedHeap, releaseHeap, emit, getCustomHeapInline,
          initializeCustomHeapInline, h, List.drop_left]

/-- Witness for claim C6, at a fresh thread state. -/
theorem both_exit_paths_same_teardown_witness :
    S0.theTLAB = none ∧
    (((startMeUp getCustomHeapInline (fun n => n + 2) 5 S0).2.tr).drop S0.tr.length
      = [Ev.tlabConstruct, Ev.heapLease, Ev.extractPack, Ev.runEntry,
         Ev.tlabClear, Ev.heapRelease]
    ∧ ((interceptedPthreadExit getCustomHeapInline
          (wrapperPreEntry getCustomHeapInline S0)).2.tr).drop S0.tr.length
      = [Ev.tlabConstruct, Ev.heapLease, Ev.extractPack, Ev.runEntry,
         Ev.tlabClear, Ev.heapRelease, Ev.forwardRealExit]
    ∧ (startMeUp getCustomHeapInline (fun n => n + 2) 5 S0).2.theTLAB
      = (interceptedPthreadExit getCustomHeapInline
          (wrapperPreEntry getCustomHeapInline S0)).2.theTLAB
    ∧ (startMeUp getCustomHeapInline (fun n => n + 2) 5 S0).2.leased = S0.leased
    ∧ (interceptedPthreadExit getCustomHeapInline
        (wrapperPreEntry getCustomHeapInline S0)).2.leased = S0.leased
    ∧ (interceptedPthreadExit getCustomHeapInline
        (wrapperPreEntry getCustomHeapInline S0)).1 = Outcome.exited) :=
  ⟨rfl, both_exit_paths_same_teardown (fun n => n + 2) 5 S0 rfl⟩

/-- Claim C8 fails on the code: in a concrete full wrapper run on a
thread whose launch package was allocated by the interceptor, the
wrapper never frees the package — no free event appears anywhere in
the trace and the package's storage is still live when the wrapper
returns — so in particular it is not freed between extraction and the
entry-function invocation. -/
theorem launch_package_never_freed :
    Ev.freePack ∉
      (startMeUp getCustomHeapInline (fun n => n) 0 { S0 with packAlive := true }).2.tr
    ∧ (startMeUp getCustomHeapInline (fun n => n) 0
        { S0 with packAlive := true }).2.packAlive = true := by
  decide

/-- Claim C8 (amended): the wrapper reads the launch package's function
and argument before invoking the real entry function, but it never
frees the package's storage — the package stays live through the whole
wrapper run and no free action is ever emitted. -/
theorem launch_package_extracted_not_freed (f : Nat → Nat) (arg : Nat) (s : S) :
    existsPrecede Ev.extractPack Ev.runEntry
        (((startMeUp getCustomHeapInline f arg s).2.tr).drop s.tr.length) = true
    ∧ (startMeUp getCustomHeapInline f arg s).2.packAlive = s.packAlive
    ∧ Ev.freePack ∉
        (((startMeUp getCustomHeapInline f arg s).2.tr).drop s.tr.length) := by
  cases h : s.theTLAB <;>
    simp [startMeUp, wrapperPreEntry, exitRoutine, findUnusedHeap, releaseHeap,
          emit, getCustomHeapInline, initializeCustomHeapInline, h,
          List.drop_left, existsPrecede]

/-- Claim C9: the intercepted `pthread_create` forwards the thread
handle and attributes unchanged to the real `pthread_create`, replaces
the start routine with the wrapper while packaging the caller's
routine and argument for it, returns exactly the real call's return
value, and stores `true` into the shared `anyThreadCreated` flag
before the real creation call. -/
theorem pthread_create_forwards_and_sets_flag (realRet : Int)
    (thr attrp rt arg : Nat) (s : S) :
    (interceptedPthreadCreate getCustomHeapInline realRet thr attrp rt arg s).1 = realRet
    ∧ (interceptedPthreadCreate getCustomHeapInline realRet thr attrp rt arg s).2.1
      = ⟨thr, attrp, true, rt, arg⟩
    ∧ (interceptedPthreadCreate getCustomHeapInline realRet thr attrp rt arg s).2.2.anyThreadCreated
      = true
    ∧ existsPrecede Ev.setFlag Ev.callRealCreate
        (((interceptedPthreadCreate getCustomHeapInline realRet thr attrp rt arg
            s).2.2.tr).drop s.tr.length) = true := by
  refine ⟨rfl, rfl, rfl, ?_⟩
  cases h1 : s.staticTDone with
  | true =>
      simp [interceptedPthreadCreate, emit, h1, List.drop_left, existsPrecede]
  | false =>
      cases h2 : s.theTLAB <;>
        simp [interceptedPthreadCreate, emit, getCustomHeapInline,
              initializeCustomHeapInline, h1, h2, List.drop_left, existsPrecede]

/-- Claim C10: calling the intercepted `pthread_exit` on a thread that
never constructed its Local Cache still performs the full teardown in
either storage variant: it first constructs a cache via
`getCustomHeap`, clears it, and then calls `releaseHeap` — decrementing
the pool's leased count even though the thread never leased a slot (no
lease event is appended). -/
theorem exit_teardown_unconditional (s : S) (h1 : s.theTLAB = none)
    (h2 : s.tsdValue = none) :
    (interceptedPthreadExit getCustomHeapInline s).2.tr
      = s.tr ++ [Ev.tlabConstruct, Ev.tlabClear, Ev.heapRelease, Ev.forwardRealExit]
    ∧ (interceptedPthreadExit getCustomHeapInline s).2.leased = s.leased - 1
    ∧ (interceptedPthreadExit (getCustomHeapKeyed true) s).2.tr
      = s.tr ++ [Ev.tlabMalloc, Ev.tlabConstruct, Ev.tlabClear, Ev.heapRelease,
                 Ev.forwardRealExit]
    ∧ (interceptedPthreadExit (getCustomHeapKeyed true) s).2.leased = s.leased - 1
    ∧ Ev.heapLease ∉
        (((interceptedPthreadExit getCustomHeapInline s).2.tr).drop s.tr.length) := by
  refine ⟨?_, ?_, ?_, ?_, ?_⟩ <;>
    simp [interceptedPthreadExit, exitRoutine, releaseHeap, emit,
          getCustomHeapInline, initializeCustomHeapInline, getCustomHeapKeyed,
          initializeCustomHeapKeyed, initTSD_tsdValue, initTSD_tr, initTSD_leased,
          h1, h2, List.drop_left]

/-- Witness for claim C10, at a fresh thread state with a zero leased
count, which the teardown drives to -1 without any lease. -/
theorem exit_teardown_unconditional_witness :
    S0.theTLAB = none ∧ S0.tsdValue = none ∧
    ((interceptedPthreadExit getCustomHeapInline S0).2.tr
      = S0.tr ++ [Ev.tlabConstruct, Ev.tlabClear, Ev.heapRelease, Ev.forwardRealExit]
    ∧ (interceptedPthreadExit getCustomHeapInline S0).2.leased = S0.leased - 1
    ∧ (interceptedPthreadExit (getCustomHeapKeyed true) S0).2.tr
      = S0.tr ++ [Ev.tlabMalloc, Ev.tlabConstruct, Ev.tlabClear, Ev.heapRelease,
                 Ev.forwardRealExit]
    ∧ (interceptedPthreadExit (getCustomHeapKeyed true) S0).2.leased = S0.leased - 1
    ∧ Ev.heapLease ∉
        (((interceptedPthreadExit getCustomHeapInline S0).2.tr).drop S0.tr.length)) :=
  ⟨rfl, rfl, exit_teardown_unconditional S0 rfl rfl⟩

end HoardTLS
